import Mathlib

/-! SOLID examples: class dispatch, console output and thrown errors.

The five source files are straight-line scripts over a small fragment of JavaScript:
class declarations (single inheritance, methods, an optional constructor), one function
declaration, `const x = new C(args)`, method and function calls, `console.log`,
`throw new Error(msg)`, `this.f = e`, one-hole template literals and `if (a === b)`.

This development gives that fragment an executable semantics (class store with the
superclass bound at declaration time, heap of objects, console as a list of lines,
completion records for thrown errors) and transcribes each source file, section by
section, as a value of the fragment.
-/

set_option autoImplicit false

namespace Solid

/-! ## Values, errors, completions -/

/-- Runtime values: `undefined`, a string, or a reference to a heap object. -/
inductive Value where
  | undefined
  | str (s : String)
  | ref (addr : Nat)
  deriving DecidableEq

/-- Errors that can end a run. `error msg` is `new Error(msg)` thrown by the program;
the other three are raised by the language itself. -/
inductive JsError where
  | error (msg : String)
  | typeError (msg : String)
  | referenceError (name : String)
  | redeclared (name : String)
  deriving DecidableEq

/-- How the execution of a statement list ended. -/
inductive Completion where
  | normal
  | thrown (e : JsError)
  | outOfFuel
  deriving DecidableEq

/-! ## Syntax of the fragment -/

/-- Expressions. `tmpl pre e post` is the template literal with one hole,
pre, then the hole holding `e`, then post. -/
inductive Expr where
  | this
  | var (x : String)
  | str (s : String)
  | field (e : Expr) (f : String)
  | tmpl (pre : String) (e : Expr) (post : String)

/-- Statements that occur in method, constructor and function bodies and as
top-level expression statements. -/
inductive Stmt where
  | log (e : Expr)
  | throwNew (msg : String)
  | setField (f : String) (e : Expr)
  | call (recv : Expr) (m : String) (args : List Expr)
  | callFn (f : String) (args : List Expr)
  | ifEq (a b : Expr) (thn els : List Stmt)

/-- A method of a class body. -/
structure Method where
  name : String
  params : List String
  body : List Stmt

/-- A class declaration as written: `class name [extends parent]` with an optional
explicit constructor and the methods in source order. -/
structure ClassDecl where
  name : String
  parent : Option String
  ctor : Option (List String × List Stmt)
  methods : List Method

/-- A function declaration. -/
structure FunDecl where
  name : String
  params : List String
  body : List Stmt

/-- Top-level statements of a script. -/
inductive TopStmt where
  | classDecl (d : ClassDecl)
  | funDecl (f : FunDecl)
  | constNew (x : String) (cls : String) (args : List Expr)
  | stmt (s : Stmt)

/-! ## Runtime state -/

/-- A class value: the superclass is the class the `extends` name was bound to when the
declaration was evaluated, stored as an index into the class store. -/
structure ClassVal where
  name : String
  parent : Option Nat
  ctor : Option (List String × List Stmt)
  methods : List Method

/-- A heap object: the index of its class and its own data fields. -/
structure Obj where
  cls : Nat
  fields : List (String × Value)
  deriving DecidableEq

/-- Interpreter state. Bindings are association lists searched from the front, so a
later binding is put in front. `out` holds the console lines, oldest first. -/
structure St where
  classes : List ClassVal
  cenv : List (String × Nat)
  funs : List (String × FunDecl)
  globals : List (String × Value)
  heap : List Obj
  out : List String

/-- The state before the first statement of a script. -/
def St.init : St :=
  { classes := [], cenv := [], funs := [], globals := [], heap := [], out := [] }

/-- The string conversion `String(v)` for the values of the fragment. -/
def Value.toStr : Value → String
  | .undefined => "undefined"
  | .str s => s
  | .ref _ => "[object Object]"

/-- Bind parameters to arguments; a missing argument is `undefined`, extra ones are dropped. -/
def bindParams : List String → List Value → List (String × Value)
  | [], _ => []
  | x :: xs, [] => (x, .undefined) :: bindParams xs []
  | x :: xs, v :: vs => (x, v) :: bindParams xs vs

/-- Set key `k` to `v` in an association list, replacing an existing entry. -/
def setKey (k : String) (v : Value) : List (String × Value) → List (String × Value)
  | [] => [(k, v)]
  | (k', v') :: rest => if k' = k then (k, v) :: rest else (k', v') :: setKey k v rest

/-- Apply `f` to the object at address `a`. -/
def updateAt (f : Obj → Obj) : Nat → List Obj → List Obj
  | _, [] => []
  | 0, o :: rest => f o :: rest
  | a + 1, o :: rest => o :: updateAt f a rest

/-- The TypeError of calling something that is not a function. -/
def notAFunction (m : String) : JsError := .typeError (m ++ " is not a function")

/-- The TypeError of reading a property of `undefined`. -/
def readOfUndefined (m : String) : JsError :=
  .typeError ("Cannot read properties of undefined (reading " ++ m ++ ")")

/-- Expression evaluation. Expressions of the fragment have no side effects. -/
def evalExpr (st : St) (this : Value) (loc : List (String × Value)) :
    Expr → Except JsError Value
  | .this => .ok this
  | .var x =>
    match loc.lookup x with
    | some v => .ok v
    | none =>
      match st.globals.lookup x with
      | some v => .ok v
      | none => .error (.referenceError x)
  | .str s => .ok (.str s)
  | .field e f =>
    match evalExpr st this loc e with
    | .error err => .error err
    | .ok .undefined => .error (readOfUndefined f)
    | .ok (.str _) => .ok .undefined
    | .ok (.ref a) =>
      match st.heap.get? a with
      | some o => .ok ((o.fields.lookup f).getD .undefined)
      | none => .ok .undefined
  | .tmpl pre e post =>
    match evalExpr st this loc e with
    | .error err => .error err
    | .ok v => .ok (.str (pre ++ v.toStr ++ post))

/-- Evaluate an argument list left to right. -/
def evalArgs (st : St) (this : Value) (loc : List (String × Value)) :
    List Expr → Except JsError (List Value)
  | [] => .ok []
  | e :: es =>
    match evalExpr st this loc e with
    | .error err => .error err
    | .ok v =>
      match evalArgs st this loc es with
      | .error err => .error err
      | .ok vs => .ok (v :: vs)

/-- The method of a class body with the given name: the last one written wins. -/
def ownMethod (c : ClassVal) (m : String) : Option Method :=
  c.methods.reverse.find? (fun meth => meth.name == m)

/-- Method lookup along the superclass chain starting at class index `cid`.
`depth` bounds the number of classes visited. -/
def lookupMethod (cs : List ClassVal) : Nat → Nat → String → Option Method
  | 0, _, _ => none
  | depth + 1, cid, m =>
    match cs.get? cid with
    | none => none
    | some c =>
      match ownMethod c m with
      | some meth => some meth
      | none =>
        match c.parent with
        | none => none
        | some p => lookupMethod cs depth p m

/-- Constructor lookup: a class without an explicit constructor passes its arguments
on to its superclass. -/
def lookupCtor (cs : List ClassVal) : Nat → Nat → Option (List String × List Stmt)
  | 0, _ => none
  | depth + 1, cid =>
    match cs.get? cid with
    | none => none
    | some c =>
      match c.ctor with
      | some k => some k
      | none =>
        match c.parent with
        | none => none
        | some p => lookupCtor cs depth p

/-- The method that the property `m` of value `v` denotes, if it denotes one. Only heap
objects carry methods here; an own data field of that name hides the methods of the class
chain, and the values it can hold are not functions. -/
def resolveMethod (st : St) (v : Value) (m : String) : Option Method :=
  match v with
  | .ref a =>
    match st.heap.get? a with
    | some o =>
      match o.fields.lookup m with
      | some _ => none
      | none => lookupMethod st.classes st.classes.length o.cls m
    | none => none
  | _ => none

/-- Strict equality `===` on the values of the fragment. -/
def strictEq (a b : Value) : Bool := decide (a = b)

/-- Sequencing of completions: continue with `k` after a normal completion, otherwise
stop with the abrupt completion. -/
def thenRun (r : St × Completion) (k : St → St × Completion) : St × Completion :=
  match r with
  | (st', .normal) => k st'
  | (st', c) => (st', c)

/-- Execute a statement list with `this` and the local bindings `loc`. Every statement
costs one unit of fuel; a call runs the callee's body with the fuel that is left. A method
body runs with `this` bound to the receiver, a function body with `this` undefined.
`console.log` is only ever applied to strings in the sources; the line it appends is the
string itself. -/
def exec : Nat → St → Value → List (String × Value) → List Stmt → St × Completion
  | _, st, _, _, [] => (st, .normal)
  | 0, st, _, _, _ :: _ => (st, .outOfFuel)
  | n + 1, st, this, loc, s :: rest =>
    match s with
    | .log e =>
      match evalExpr st this loc e with
      | .error err => (st, .thrown err)
      | .ok v => exec n { st with out := st.out ++ [v.toStr] } this loc rest
    | .throwNew msg => (st, .thrown (.error msg))
    | .setField f e =>
      match evalExpr st this loc e with
      | .error err => (st, .thrown err)
      | .ok v =>
        match this with
        | .ref a =>
          exec n { st with heap := updateAt (fun o => { o with fields := setKey f v o.fields }) a st.heap }
            this loc rest
        | .str _ => (st, .thrown (.typeError ("Cannot create property " ++ f ++ " on string")))
        | .undefined =>
          (st, .thrown (.typeError ("Cannot set properties of undefined (setting " ++ f ++ ")")))
    | .call recv m args =>
      match evalExpr st this loc recv with
      | .error err => (st, .thrown err)
      | .ok .undefined => (st, .thrown (readOfUndefined m))
      | .ok rv =>
        match evalArgs st this loc args with
        | .error err => (st, .thrown err)
        | .ok vs =>
          match resolveMethod st rv m with
          | none => (st, .thrown (notAFunction m))
          | some meth =>
            thenRun (exec n st rv (bindParams meth.params vs) meth.body)
              (fun st' => exec n st' this loc rest)
    | .callFn f args =>
      match st.funs.lookup f with
      | none => (st, .thrown (.referenceError f))
      | some fd =>
        match evalArgs st this loc args with
        | .error err => (st, .thrown err)
        | .ok vs =>
          thenRun (exec n st .undefined (bindParams fd.params vs) fd.body)
            (fun st' => exec n st' this loc rest)
    | .ifEq a b thn els =>
      match evalExpr st this loc a with
      | .error err => (st, .thrown err)
      | .ok va =>
        match evalExpr st this loc b with
        | .error err => (st, .thrown err)
        | .ok vb =>
          thenRun (exec n st this loc (if strictEq va vb then thn else els))
            (fun st' => exec n st' this loc rest)

/-- The call `rv.m(vs)` on an evaluated receiver and evaluated arguments. -/
def invokeMethod (n : Nat) (st : St) (rv : Value) (m : String) (vs : List Value) :
    St × Completion :=
  match rv with
  | .undefined => (st, .thrown (readOfUndefined m))
  | _ =>
    match resolveMethod st rv m with
    | none => (st, .thrown (notAFunction m))
    | some meth => exec n st rv (bindParams meth.params vs) meth.body

/-- Evaluate `new C(vs)` for the class with index `cid`: allocate the object, then run the
constructor found along the superclass chain with `this` bound to the new object. -/
def construct (n : Nat) (st : St) (cid : Nat) (vs : List Value) : St × Completion × Value :=
  let addr := st.heap.length
  let st1 := { st with heap := st.heap ++ [{ cls := cid, fields := [] }] }
  match lookupCtor st.classes st.classes.length cid with
  | none => (st1, .normal, .ref addr)
  | some (params, body) =>
    match exec n st1 (.ref addr) (bindParams params vs) body with
    | (st2, c) => (st2, c, .ref addr)

/-- Evaluate a class declaration: resolve the superclass name now, append the class value
to the store and bind the class name to it. -/
def St.declareClass (st : St) (d : ClassDecl) (parent : Option Nat) : St :=
  { st with
    classes := st.classes ++ [{ name := d.name, parent := parent, ctor := d.ctor, methods := d.methods }]
    cenv := (d.name, st.classes.length) :: st.cenv }

/-- Run top-level statements in source order from state `st`. A statement that does not
complete normally ends the run: nothing after it is executed. A name that is declared
again is simply bound again here; `runScript` below adds the early error of the language. -/
def runTop (fuel : Nat) : St → List TopStmt → St × Completion
  | st, [] => (st, .normal)
  | st, t :: rest =>
    match t with
    | .classDecl d =>
      match d.parent with
      | none => runTop fuel (st.declareClass d none) rest
      | some pn =>
        match st.cenv.lookup pn with
        | none => (st, .thrown (.referenceError pn))
        | some pid => runTop fuel (st.declareClass d (some pid)) rest
    | .funDecl f => runTop fuel { st with funs := (f.name, f) :: st.funs } rest
    | .constNew x cn args =>
      match st.cenv.lookup cn with
      | none => (st, .thrown (.referenceError cn))
      | some cid =>
        match evalArgs st .undefined [] args with
        | .error err => (st, .thrown err)
        | .ok vs =>
          match construct fuel st cid vs with
          | (st', .normal, v) => runTop fuel { st' with globals := (x, v) :: st'.globals } rest
          | (st', c, _) => (st', c)
    | .stmt s =>
      thenRun (exec fuel st .undefined [] [s]) (fun st' => runTop fuel st' rest)

/-- Names bound by the lexical declarations (`class`, `const`) of a script, in source order. -/
def lexicalNames : List TopStmt → List String
  | [] => []
  | .classDecl d :: rest => d.name :: lexicalNames rest
  | .constNew x _ _ :: rest => x :: lexicalNames rest
  | _ :: rest => lexicalNames rest

/-- Names bound by the function declarations of a script. -/
def functionNames : List TopStmt → List String
  | [] => []
  | .funDecl f :: rest => f.name :: functionNames rest
  | _ :: rest => functionNames rest

/-- The first name a script declares lexically after it was already declared. -/
def firstRedeclared (seen : List String) : List String → Option String
  | [] => none
  | x :: xs => if x ∈ seen then some x else firstRedeclared (x :: seen) xs

/-- Run a whole script the way the language does: a name declared twice by `class` or
`const` (or also by a function) is an early error, raised before any statement runs. -/
def runScript (fuel : Nat) (prog : List TopStmt) : St × Completion :=
  match firstRedeclared (functionNames prog) (lexicalNames prog) with
  | some x => (St.init, .thrown (.redeclared x))
  | none => runTop fuel St.init prog

/-- Run a section of a file on its own, from the empty state. -/
def runSection (fuel : Nat) (prog : List TopStmt) : St × Completion :=
  runTop fuel St.init prog

/-- Console lines and completion: what an observer of a run sees. -/
def observe (r : St × Completion) : List String × Completion := (r.1.out, r.2)

/-! ## `Dependency-In.js` -/

namespace DependencyIn

/-- Lines 17-25: `class Bulb` of the wrong approach. -/
def BulbWrong : ClassDecl :=
  { name := "Bulb", parent := none, ctor := none,
    methods :=
      [ { name := "turnOn", params := [], body := [.log (.str "Bulb is ON")] },
        { name := "turnOff", params := [], body := [.log (.str "Bulb is OFF")] } ] }

/-- Lines 28-36: `class Switch` of the wrong approach. -/
def SwitchWrong : ClassDecl :=
  { name := "Switch", parent := none,
    ctor := some (["bulb"], [.setField "bulb" (.var "bulb")]),
    methods :=
      [ { name := "press", params := [], body := [.call (.field .this "bulb") "turnOn" []] } ] }

/-- Lines 17-41: the wrong-approach section. -/
def wrongSection : List TopStmt :=
  [ .classDecl BulbWrong,
    .classDecl SwitchWrong,
    .constNew "bulb1" "Bulb" [],
    .constNew "mySwitch1" "Switch" [.var "bulb1"],
    .stmt (.call (.var "mySwitch1") "press" []) ]

/-- Lines 56-64: `class ElectricDevice`. -/
def ElectricDevice : ClassDecl :=
  { name := "ElectricDevice", parent := none, ctor := none,
    methods :=
      [ { name := "turnOn", params := [], body := [.throwNew "This method must be implemented!"] },
        { name := "turnOff", params := [], body := [.throwNew "This method must be implemented!"] } ] }

/-- Lines 67-75: `class Bulb extends ElectricDevice`. -/
def Bulb : ClassDecl :=
  { name := "Bulb", parent := some "ElectricDevice", ctor := none,
    methods :=
      [ { name := "turnOn", params := [], body := [.log (.str "Bulb is ON")] },
        { name := "turnOff", params := [], body := [.log (.str "Bulb is OFF")] } ] }

/-- Lines 78-86: `class Fan extends ElectricDevice`. -/
def Fan : ClassDecl :=
  { name := "Fan", parent := some "ElectricDevice", ctor := none,
    methods :=
      [ { name := "turnOn", params := [], body := [.log (.str "Fan is ON")] },
        { name := "turnOff", params := [], body := [.log (.str "Fan is OFF")] } ] }

/-- Lines 89-97: `class Switch`. -/
def Switch : ClassDecl :=
  { name := "Switch", parent := none,
    ctor := some (["device"], [.setField "device" (.var "device")]),
    methods :=
      [ { name := "press", params := [], body := [.call (.field .this "device") "turnOn" []] } ] }

/-- Lines 56-97: the declarations of the corrected section. -/
def decls : List TopStmt :=
  [ .classDecl ElectricDevice, .classDecl Bulb, .classDecl Fan, .classDecl Switch ]

/-- Lines 100-107: the usage of the corrected section. -/
def usage : List TopStmt :=
  [ .constNew "bulb" "Bulb" [],
    .constNew "fan" "Fan" [],
    .constNew "mySwitch" "Switch" [.var "bulb"],
    .stmt (.call (.var "mySwitch") "press" []),
    .constNew "fanSwitch" "Switch" [.var "fan"],
    .stmt (.call (.var "fanSwitch") "press" []) ]

/-- Lines 56-107: the corrected section. -/
def goodSection : List TopStmt := decls ++ usage

/-- The whole file in source order. -/
def file : List TopStmt := wrongSection ++ goodSection

/-- The script `const d = new D(); const s = new Switch(d); s.press();` after the
declarations of the corrected section. -/
def pressOn (deviceClass : String) : List TopStmt :=
  decls ++
  [ .constNew "d" deviceClass [],
    .constNew "s" "Switch" [.var "d"],
    .stmt (.call (.var "s") "press" []) ]

/-- The script `const d = new D(); d.m();` after the declarations of the corrected section. -/
def callOn (deviceClass : String) (m : String) : List TopStmt :=
  decls ++
  [ .constNew "d" deviceClass [],
    .stmt (.call (.var "d") m []) ]

end DependencyIn

/-! ## `Liskov-Subs.js` -/

namespace LiskovSubs

/-- Lines 16-20: `class Bird` of the wrong approach. -/
def BirdWrong : ClassDecl :=
  { name := "Bird", parent := none, ctor := none,
    methods := [ { name := "fly", params := [], body := [.log (.str "This bird is flying")] } ] }

/-- Line 22: `class Sparrow extends Bird { }` of the wrong approach. -/
def SparrowWrong : ClassDecl :=
  { name := "Sparrow", parent := some "Bird", ctor := none, methods := [] }

/-- Line 24: `class Penguin extends Bird { }` of the wrong approach. -/
def PenguinWrong : ClassDecl :=
  { name := "Penguin", parent := some "Bird", ctor := none, methods := [] }

/-- Lines 16-24: the declarations of the wrong-approach section. -/
def wrongDecls : List TopStmt :=
  [ .classDecl BirdWrong, .classDecl SparrowWrong, .classDecl PenguinWrong ]

/-- Lines 26-27: `const sparrow1 = new Sparrow(); sparrow1.fly();`. -/
def wrongSparrowUsage : List TopStmt :=
  [ .constNew "sparrow1" "Sparrow" [],
    .stmt (.call (.var "sparrow1") "fly" []) ]

/-- Lines 29-30: `const penguin1 = new Penguin(); penguin1.fly();`. -/
def wrongPenguinUsage : List TopStmt :=
  [ .constNew "penguin1" "Penguin" [],
    .stmt (.call (.var "penguin1") "fly" []) ]

/-- Lines 16-30: the wrong-approach section. -/
def wrongSection : List TopStmt := wrongDecls ++ wrongSparrowUsage ++ wrongPenguinUsage

/-- Lines 41-45: `class Bird`. -/
def Bird : ClassDecl :=
  { name := "Bird", parent := none, ctor := none,
    methods := [ { name := "eat", params := [], body := [.log (.str "This bird is eating")] } ] }

/-- Lines 48-52: `class FlyingBird extends Bird`. -/
def FlyingBird : ClassDecl :=
  { name := "FlyingBird", parent := some "Bird", ctor := none,
    methods := [ { name := "fly", params := [], body := [.log (.str "This bird is flying")] } ] }

/-- Line 55: `class Sparrow extends FlyingBird { }`. -/
def Sparrow : ClassDecl :=
  { name := "Sparrow", parent := some "FlyingBird", ctor := none, methods := [] }

/-- Lines 58-62: `class Penguin extends Bird`. -/
def Penguin : ClassDecl :=
  { name := "Penguin", parent := some "Bird", ctor := none,
    methods := [ { name := "swim", params := [], body := [.log (.str "This bird is swimming")] } ] }

/-- Lines 41-62: the declarations of the corrected section. -/
def decls : List TopStmt :=
  [ .classDecl Bird, .classDecl FlyingBird, .classDecl Sparrow, .classDecl Penguin ]

/-- Lines 65-69: the usage of the corrected section. -/
def usage : List TopStmt :=
  [ .constNew "sparrow" "Sparrow" [],
    .stmt (.call (.var "sparrow") "fly" []),
    .constNew "penguin" "Penguin" [],
    .stmt (.call (.var "penguin") "swim" []) ]

/-- Lines 41-69: the corrected section. -/
def goodSection : List TopStmt := decls ++ usage

/-- The whole file in source order. -/
def file : List TopStmt := wrongSection ++ goodSection

/-- The script `const b = new C(); b.m();` after the declarations of the corrected section. -/
def callOn (birdClass : String) (m : String) : List TopStmt :=
  decls ++
  [ .constNew "b" birdClass [],
    .stmt (.call (.var "b") m []) ]

end LiskovSubs

/-! ## `Open-Close.js` -/

namespace OpenClose

/-- Lines 15-25: `class Payment` of the wrong approach, with its string-keyed
`if / else if / else`. -/
def PaymentWrong : ClassDecl :=
  { name := "Payment", parent := none, ctor := none,
    methods :=
      [ { name := "pay", params := ["method"],
          body :=
            [ .ifEq (.var "method") (.str "creditCard")
                [.log (.str "Payment done using Credit Card")]
                [ .ifEq (.var "method") (.str "paypal")
                    [.log (.str "Payment done using PayPal")]
                    [.log (.str "Invalid payment method")] ] ] } ] }

/-- Lines 15-25: the wrong-approach section (a declaration, no calls). -/
def wrongSection : List TopStmt := [ .classDecl PaymentWrong ]

/-- Lines 36-40: `class Payment`. -/
def Payment : ClassDecl :=
  { name := "Payment", parent := none, ctor := none,
    methods :=
      [ { name := "pay", params := [], body := [.throwNew "Method 'pay()' must be implemented"] } ] }

/-- Lines 43-47: `class CreditCardPayment extends Payment`. -/
def CreditCardPayment : ClassDecl :=
  { name := "CreditCardPayment", parent := some "Payment", ctor := none,
    methods :=
      [ { name := "pay", params := [], body := [.log (.str "Payment done using Credit Card")] } ] }

/-- Lines 50-54: `class PayPalPayment extends Payment`. -/
def PayPalPayment : ClassDecl :=
  { name := "PayPalPayment", parent := some "Payment", ctor := none,
    methods :=
      [ { name := "pay", params := [], body := [.log (.str "Payment done using PayPal")] } ] }

/-- Lines 57-61: `class GooglePayPayment extends Payment`. -/
def GooglePayPayment : ClassDecl :=
  { name := "GooglePayPayment", parent := some "Payment", ctor := none,
    methods :=
      [ { name := "pay", params := [], body := [.log (.str "Payment done using Google Pay")] } ] }

/-- Lines 64-66: `function processPayment(paymentMethod) { paymentMethod.pay(); }`. -/
def processPayment : FunDecl :=
  { name := "processPayment", params := ["paymentMethod"],
    body := [.call (.var "paymentMethod") "pay" []] }

/-- Lines 36-66: the declarations of the corrected section. -/
def decls : List TopStmt :=
  [ .classDecl Payment, .classDecl CreditCardPayment, .classDecl PayPalPayment,
    .classDecl GooglePayPayment, .funDecl processPayment ]

/-- Lines 69-75: the usage of the corrected section. -/
def usage : List TopStmt :=
  [ .constNew "creditCard" "CreditCardPayment" [],
    .constNew "paypal" "PayPalPayment" [],
    .constNew "googlePay" "GooglePayPayment" [],
    .stmt (.callFn "processPayment" [.var "creditCard"]),
    .stmt (.callFn "processPayment" [.var "paypal"]),
    .stmt (.callFn "processPayment" [.var "googlePay"]) ]

/-- Lines 36-75: the corrected section. -/
def goodSection : List TopStmt := decls ++ usage

/-- The whole file in source order. -/
def file : List TopStmt := wrongSection ++ goodSection

/-- The script `const p = new C(); processPayment(p);` after the declarations of the
corrected section. -/
def processOn (paymentClass : String) : List TopStmt :=
  decls ++
  [ .constNew "p" paymentClass [],
    .stmt (.callFn "processPayment" [.var "p"]) ]

/-- The script `const p = new C(); p.pay();` after the declarations of the corrected section. -/
def payOn (paymentClass : String) : List TopStmt :=
  decls ++
  [ .constNew "p" paymentClass [],
    .stmt (.call (.var "p") "pay" []) ]

/-- The state reached by the declarations of the corrected section followed by
`const p = new GooglePayPayment();`. -/
def googlePayState : St :=
  (runSection 3 (decls ++ [.constNew "p" "GooglePayPayment" []])).1

end OpenClose

/-! ## `Single-Res.js` -/

namespace SingleRes

/-- Lines 14-27: `class User` of the wrong approach. -/
def UserWrong : ClassDecl :=
  { name := "User", parent := none,
    ctor := some (["name", "email"],
      [.setField "name" (.var "name"), .setField "email" (.var "email")]),
    methods :=
      [ { name := "saveToDatabase", params := [],
          body := [.log (.tmpl "Saving " (.field .this "name") " to database...")] },
        { name := "sendEmail", params := [],
          body := [.log (.tmpl "Sending email to " (.field .this "email") "...")] } ] }

/-- Lines 14-27: the wrong-approach section (a declaration, no calls). -/
def wrongSection : List TopStmt := [ .classDecl UserWrong ]

/-- Lines 40-45: `class User`. -/
def User : ClassDecl :=
  { name := "User", parent := none,
    ctor := some (["name", "email"],
      [.setField "name" (.var "name"), .setField "email" (.var "email")]),
    methods := [] }

/-- Lines 48-52: `class UserRepository`. -/
def UserRepository : ClassDecl :=
  { name := "UserRepository", parent := none, ctor := none,
    methods :=
      [ { name := "save", params := ["user"],
          body := [.log (.tmpl "Saving " (.field (.var "user") "name") " to database...")] } ] }

/-- Lines 55-59: `class EmailService`. -/
def EmailService : ClassDecl :=
  { name := "EmailService", parent := none, ctor := none,
    methods :=
      [ { name := "send", params := ["user"],
          body := [.log (.tmpl "Sending email to " (.field (.var "user") "email") "...")] } ] }

/-- Lines 40-59: the declarations of the corrected section. -/
def decls : List TopStmt :=
  [ .classDecl User, .classDecl UserRepository, .classDecl EmailService ]

/-- Lines 62-67: the usage of the corrected section. -/
def usage : List TopStmt :=
  [ .constNew "user" "User" [.str "Fayyaz", .str "fayyaz@example.com"],
    .constNew "userRepository" "UserRepository" [],
    .constNew "emailService" "EmailService" [],
    .stmt (.call (.var "userRepository") "save" [.var "user"]),
    .stmt (.call (.var "emailService") "send" [.var "user"]) ]

/-- Lines 40-67: the corrected section. -/
def goodSection : List TopStmt := decls ++ usage

/-- The whole file in source order. -/
def file : List TopStmt := wrongSection ++ goodSection

/-- The script `const user = new User(name, email); const userRepository = new UserRepository();
userRepository.save(user);` after the declarations of the corrected section. -/
def saveUser (name email : String) : List TopStmt :=
  decls ++
  [ .constNew "user" "User" [.str name, .str email],
    .constNew "userRepository" "UserRepository" [],
    .stmt (.call (.var "userRepository") "save" [.var "user"]) ]

/-- The script `const user = new User(name, email); const emailService = new EmailService();
emailService.send(user);` after the declarations of the corrected section. -/
def sendUser (name email : String) : List TopStmt :=
  decls ++
  [ .constNew "user" "User" [.str name, .str email],
    .constNew "emailService" "EmailService" [],
    .stmt (.call (.var "emailService") "send" [.var "user"]) ]

end SingleRes

/-! ## `js/Interface-segm.js` -/

namespace InterfaceSegm

/-- Lines 14-18: `class RestaurantMenu`, three methods with empty bodies. -/
def RestaurantMenu : ClassDecl :=
  { name := "RestaurantMenu", parent := none, ctor := none,
    methods :=
      [ { name := "preparePizza", params := [], body := [] },
        { name := "prepareBurger", params := [], body := [] },
        { name := "prepareJuice", params := [], body := [] } ] }

/-- Lines 21-33: `class PizzaChef extends RestaurantMenu` of the wrong approach. -/
def PizzaChefWrong : ClassDecl :=
  { name := "PizzaChef", parent := some "RestaurantMenu", ctor := none,
    methods :=
      [ { name := "preparePizza", params := [], body := [.log (.str "Making Pizza...")] },
        { name := "prepareBurger", params := [], body := [.throwNew "I can't make a Burger!"] },
        { name := "prepareJuice", params := [], body := [.throwNew "I can't make Juice!"] } ] }

/-- Lines 14-33: the declarations of the wrong-approach section. -/
def wrongDecls : List TopStmt :=
  [ .classDecl RestaurantMenu, .classDecl PizzaChefWrong ]

/-- Lines 36-38: the usage of the wrong-approach section. -/
def wrongUsage : List TopStmt :=
  [ .constNew "chef" "PizzaChef" [],
    .stmt (.call (.var "chef") "preparePizza" []),
    .stmt (.call (.var "chef") "prepareBurger" []) ]

/-- Lines 14-38: the wrong-approach section. -/
def wrongSection : List TopStmt := wrongDecls ++ wrongUsage

/-- The script `const r = new C(); r.m();` after the declarations of the wrong-approach
section. -/
def wrongCallOn (receiverClass : String) (m : String) : List TopStmt :=
  wrongDecls ++
  [ .constNew "r" receiverClass [],
    .stmt (.call (.var "r") m []) ]

/-- Lines 52-56: `class PizzaMaker`. -/
def PizzaMaker : ClassDecl :=
  { name := "PizzaMaker", parent := none, ctor := none,
    methods := [ { name := "preparePizza", params := [], body := [.log (.str "Making Pizza...")] } ] }

/-- Lines 59-63: `class BurgerMaker`. -/
def BurgerMaker : ClassDecl :=
  { name := "BurgerMaker", parent := none, ctor := none,
    methods := [ { name := "prepareBurger", params := [], body := [.log (.str "Making Burger...")] } ] }

/-- Lines 66-70: `class JuiceMaker`. -/
def JuiceMaker : ClassDecl :=
  { name := "JuiceMaker", parent := none, ctor := none,
    methods := [ { name := "prepareJuice", params := [], body := [.log (.str "Making Juice...")] } ] }

/-- Line 73: `class PizzaChef extends PizzaMaker { }`. -/
def PizzaChef : ClassDecl :=
  { name := "PizzaChef", parent := some "PizzaMaker", ctor := none, methods := [] }

/-- Line 76: `class BurgerChef extends BurgerMaker { }`. -/
def BurgerChef : ClassDecl :=
  { name := "BurgerChef", parent := some "BurgerMaker", ctor := none, methods := [] }

/-- Line 79: `class JuiceChef extends JuiceMaker { }`. -/
def JuiceChef : ClassDecl :=
  { name := "JuiceChef", parent := some "JuiceMaker", ctor := none, methods := [] }

/-- Lines 52-79: the declarations of the corrected section. -/
def decls : List TopStmt :=
  [ .classDecl PizzaMaker, .classDecl BurgerMaker, .classDecl JuiceMaker,
    .classDecl PizzaChef, .classDecl BurgerChef, .classDecl JuiceChef ]

/-- Lines 82-89: the usage of the corrected section. -/
def usage : List TopStmt :=
  [ .constNew "pizzaChef" "PizzaChef" [],
    .stmt (.call (.var "pizzaChef") "preparePizza" []),
    .constNew "burgerChef" "BurgerChef" [],
    .stmt (.call (.var "burgerChef") "prepareBurger" []),
    .constNew "juiceChef" "JuiceChef" [],
    .stmt (.call (.var "juiceChef") "prepareJuice" []) ]

/-- Lines 52-89: the corrected section. -/
def goodSection : List TopStmt := decls ++ usage

/-- The whole file in source order. -/
def file : List TopStmt := wrongSection ++ goodSection

/-- The script `const c = new C(); c.m();` after the declarations of the corrected section. -/
def callOn (chefClass : String) (m : String) : List TopStmt :=
  decls ++
  [ .constNew "c" chefClass [],
    .stmt (.call (.var "c") m []) ]

end InterfaceSegm

/-! ## Operation sets of a class -/

/-- Names of the methods declared along the superclass chain starting at class index `cid`,
nearest class first. -/
def methodNames (cs : List ClassVal) : Nat → Nat → List String
  | 0, _ => []
  | depth + 1, cid =>
    match cs.get? cid with
    | none => []
    | some c =>
      c.methods.map (fun meth => meth.name) ++
        (match c.parent with
         | none => []
         | some p => methodNames cs depth p)

/-- The state after the declarations `ds` have been evaluated from the empty state. -/
def declared (ds : List TopStmt) : St := (runTop 0 St.init ds).1

/-- Method lookup of `m` on the class currently bound to the name `cls`. -/
def St.methodOf (st : St) (cls m : String) : Option Method :=
  match st.cenv.lookup cls with
  | none => none
  | some cid => lookupMethod st.classes st.classes.length cid m

/-- The operations of the class currently bound to the name `cls`: every method name
declared on it or on one of its ancestors. -/
def St.operations (st : St) (cls : String) : List String :=
  match st.cenv.lookup cls with
  | none => []
  | some cid => methodNames st.classes st.classes.length cid

end Solid

namespace Solid

/-! ## Fuel: more fuel never changes a finished run -/

theorem thenRun_snd_ne (r : St × Completion) (k : St → St × Completion)
    (h : (thenRun r k).2 ≠ .outOfFuel) :
    r.2 ≠ .outOfFuel ∧ (r.2 = .normal → (k r.1).2 ≠ .outOfFuel) := by
  obtain ⟨st', c⟩ := r
  cases c <;> simp_all [thenRun]

theorem thenRun_congr (r r' : St × Completion) (k k' : St → St × Completion)
    (hr : r' = r) (hk : r.2 = .normal → k' r.1 = k r.1) :
    thenRun r' k' = thenRun r k := by
  subst hr
  obtain ⟨st', c⟩ := r'
  cases c <;> simp_all [thenRun]

theorem exec_succ : ∀ (n : Nat) (st : St) (this : Value) (loc : List (String × Value))
    (ss : List Stmt), (exec n st this loc ss).2 ≠ .outOfFuel →
    exec (n + 1) st this loc ss = exec n st this loc ss := by
  intro n
  induction n with
  | zero =>
    intro st this loc ss h
    cases ss with
    | nil => simp [exec]
    | cons s rest => simp [exec] at h
  | succ n ih =>
    intro st this loc ss h
    cases ss with
    | nil => simp [exec]
    | cons s rest =>
      cases s with
      | log e =>
        simp only [exec] at h ⊢
        cases he : evalExpr st this loc e with
        | error err => simp
        | ok v =>
          simp only [he] at h ⊢
          exact ih _ _ _ _ h
      | throwNew msg => simp [exec]
      | setField f e =>
        simp only [exec] at h ⊢
        cases he : evalExpr st this loc e with
        | error err => simp
        | ok v =>
          simp only [he] at h ⊢
          cases this with
          | undefined => simp
          | str s => simp
          | ref a => exact ih _ _ _ _ h
      | call recv m args =>
        simp only [exec] at h ⊢
        cases he : evalExpr st this loc recv with
        | error err => simp
        | ok rv =>
          cases rv with
          | undefined => simp
          | str s =>
            simp only [he] at h ⊢
            cases ha : evalArgs st this loc args with
            | error err => simp
            | ok vs =>
              simp only [ha] at h ⊢
              cases hm : resolveMethod st (.str s) m with
              | none => simp
              | some meth =>
                simp only [hm] at h ⊢
                obtain ⟨h1, h2⟩ := thenRun_snd_ne _ _ h
                exact thenRun_congr _ _ _ _ (ih _ _ _ _ h1) (fun hn => ih _ _ _ _ (h2 hn))
          | ref a =>
            simp only [he] at h ⊢
            cases ha : evalArgs st this loc args with
            | error err => simp
            | ok vs =>
              simp only [ha] at h ⊢
              cases hm : resolveMethod st (.ref a) m with
              | none => simp
              | some meth =>
                simp only [hm] at h ⊢
                obtain ⟨h1, h2⟩ := thenRun_snd_ne _ _ h
                exact thenRun_congr _ _ _ _ (ih _ _ _ _ h1) (fun hn => ih _ _ _ _ (h2 hn))
      | callFn f args =>
        simp only [exec] at h ⊢
        cases hf : st.funs.lookup f with
        | none => simp
        | some fd =>
          simp only [hf] at h ⊢
          cases ha : evalArgs st this loc args with
          | error err => simp
          | ok vs =>
            simp only [ha] at h ⊢
            obtain ⟨h1, h2⟩ := thenRun_snd_ne _ _ h
            exact thenRun_congr _ _ _ _ (ih _ _ _ _ h1) (fun hn => ih _ _ _ _ (h2 hn))
      | ifEq a b thn els =>
        simp only [exec] at h ⊢
        cases hea : evalExpr st this loc a with
        | error err => simp
        | ok va =>
          simp only [hea] at h ⊢
          cases heb : evalExpr st this loc b with
          | error err => simp
          | ok vb =>
            simp only [heb] at h ⊢
            obtain ⟨h1, h2⟩ := thenRun_snd_ne _ _ h
            exact thenRun_congr _ _ _ _ (ih _ _ _ _ h1) (fun hn => ih _ _ _ _ (h2 hn))

theorem exec_add (n k : Nat) (st : St) (this : Value) (loc : List (String × Value))
    (ss : List Stmt) (h : (exec n st this loc ss).2 ≠ .outOfFuel) :
    exec (n + k) st this loc ss = exec n st this loc ss := by
  induction k with
  | zero => rfl
  | succ k ih =>
    rw [← Nat.add_assoc, exec_succ (n + k) st this loc ss (by rw [ih]; exact h), ih]

theorem construct_add (n k : Nat) (st : St) (cid : Nat) (vs : List Value)
    (h : (construct n st cid vs).2.1 ≠ .outOfFuel) :
    construct (n + k) st cid vs = construct n st cid vs := by
  unfold construct at h ⊢
  cases hc : lookupCtor st.classes st.classes.length cid with
  | none => rfl
  | some pb =>
    obtain ⟨params, body⟩ := pb
    simp only [hc] at h ⊢
    rw [exec_add n k _ _ _ _ h]

theorem runTop_add (n k : Nat) : ∀ (prog : List TopStmt) (st : St),
    (runTop n st prog).2 ≠ .outOfFuel → runTop (n + k) st prog = runTop n st prog := by
  intro prog
  induction prog with
  | nil => intro st _; rfl
  | cons t rest ih =>
    intro st h
    cases t with
    | classDecl d =>
      simp only [runTop] at h ⊢
      cases hp : d.parent with
      | none =>
        simp only [hp] at h ⊢
        exact ih _ h
      | some pn =>
        simp only [hp] at h ⊢
        cases hl : st.cenv.lookup pn with
        | none => rfl
        | some pid =>
          simp only [hl] at h ⊢
          exact ih _ h
    | funDecl f =>
      simp only [runTop] at h ⊢
      exact ih _ h
    | constNew x cn args =>
      simp only [runTop] at h ⊢
      cases hl : st.cenv.lookup cn with
      | none => rfl
      | some cid =>
        simp only [hl] at h ⊢
        cases ha : evalArgs st .undefined [] args with
        | error err => rfl
        | ok vs =>
          simp only [ha] at h ⊢
          have hne : (construct n st cid vs).2.1 ≠ .outOfFuel := by
            intro hc
            rcases hr : construct n st cid vs with ⟨st', c, v⟩
            rw [hr] at hc h
            simp only at hc
            subst hc
            simp at h
          rw [construct_add n k st cid vs hne]
          rcases hr : construct n st cid vs with ⟨st', c, v⟩
          rw [hr] at h
          cases c with
          | normal => exact ih _ h
          | thrown e => rfl
          | outOfFuel => rfl
    | stmt s =>
      simp only [runTop] at h ⊢
      obtain ⟨h1, h2⟩ := thenRun_snd_ne _ _ h
      exact thenRun_congr _ _ _ _ (exec_add n k _ _ _ _ h1) (fun hn => ih _ (h2 hn))

/-- A section that finished with `n` units of fuel finishes the same way with more. -/
theorem observe_runSection_add (n k : Nat) (prog : List TopStmt) (lines : List String)
    (c : Completion) (hc : c ≠ .outOfFuel) (h : observe (runSection n prog) = (lines, c)) :
    observe (runSection (n + k) prog) = (lines, c) := by
  have h2 : (runSection n prog).2 = c := congrArg Prod.snd h
  unfold runSection at h h2 ⊢
  rw [runTop_add n k prog St.init (by rw [h2]; exact hc)]
  exact h

theorem ownMethod_isSome (c : ClassVal) (m : String) :
    (ownMethod c m).isSome = true ↔ m ∈ c.methods.map (fun meth => meth.name) := by
  unfold ownMethod
  simp only [List.find?_isSome, List.mem_reverse, List.mem_map, beq_iff_eq]

/-- Method lookup finds something exactly for the names listed by `methodNames`. -/
theorem lookupMethod_isSome (cs : List ClassVal) (m : String) : ∀ (depth cid : Nat),
    (lookupMethod cs depth cid m).isSome = true ↔ m ∈ methodNames cs depth cid := by
  intro depth
  induction depth with
  | zero => intro cid; simp [lookupMethod, methodNames]
  | succ d ih =>
    intro cid
    simp only [lookupMethod, methodNames]
    cases hc : cs.get? cid with
    | none => simp
    | some c =>
      simp only [List.mem_append]
      rw [← ownMethod_isSome]
      cases ho : ownMethod c m with
      | some meth => simp
      | none =>
        cases hp : c.parent with
        | none => simp
        | some p => simp [ih p]

theorem methodOf_isSome (st : St) (cls m : String) :
    (st.methodOf cls m).isSome = true ↔ m ∈ st.operations cls := by
  unfold St.methodOf St.operations
  cases st.cenv.lookup cls with
  | none => simp
  | some cid => exact lookupMethod_isSome _ _ _ _

theorem thenRun_done (r : St × Completion) : thenRun r (fun st' => (st', .normal)) = r := by
  obtain ⟨st', c⟩ := r
  cases c <;> rfl

theorem exec_nil (n : Nat) (st : St) (this : Value) (loc : List (String × Value)) :
    exec n st this loc [] = (st, .normal) := by
  cases n <;> simp [exec]

/-- With at least two units of fuel the statement `processPayment(e);` does exactly what
the statement `e.pay();` does with one unit less. -/
theorem exec_processPayment (st : St)
    (hf : st.funs.lookup "processPayment" = some OpenClose.processPayment)
    (this : Value) (loc : List (String × Value)) (e : Expr) (n : Nat) :
    exec (n + 2) st this loc [.callFn "processPayment" [e]] =
      exec (n + 1) st this loc [.call e "pay" []] := by
  simp only [exec, hf, evalArgs, OpenClose.processPayment, exec_nil, thenRun_done]
  cases he : evalExpr st this loc e with
  | error err => rfl
  | ok v =>
    cases v with
    | undefined => simp [bindParams, evalExpr, List.lookup]
    | str s => simp [bindParams, evalExpr, List.lookup]
    | ref a => simp [bindParams, evalExpr, List.lookup]

/-- With one unit of fuel `processPayment(e);` can only end by failing to evaluate `e`,
and then `e.pay();` fails the same way. -/
theorem exec_processPayment_one (st : St)
    (hf : st.funs.lookup "processPayment" = some OpenClose.processPayment)
    (this : Value) (loc : List (String × Value)) (e : Expr)
    (h : (exec 1 st this loc [.callFn "processPayment" [e]]).2 ≠ .outOfFuel) :
    exec 1 st this loc [.callFn "processPayment" [e]] = exec 1 st this loc [.call e "pay" []] := by
  simp only [exec, hf, evalArgs, OpenClose.processPayment] at h ⊢
  cases he : evalExpr st this loc e with
  | error err => rfl
  | ok v => simp [he, thenRun] at h

/-! ## The claims -/

/-- C1: in the corrected Dependency-Inversion section, a `Switch` constructed with a `Bulb`
(respectively a `Fan`) completes `press()` normally and the console then holds exactly the
one line "Bulb is ON" (respectively "Fan is ON"), so no "is OFF" line; the usage of lines
100-107 prints these two lines in this order. This holds for every amount of fuel from 3 on. -/
theorem C1_switch_press_turns_device_on (k : Nat) :
    observe (runSection (3 + k) (DependencyIn.pressOn "Bulb")) = (["Bulb is ON"], .normal) ∧
    observe (runSection (3 + k) (DependencyIn.pressOn "Fan")) = (["Fan is ON"], .normal) ∧
    observe (runSection (3 + k) DependencyIn.goodSection) =
      (["Bulb is ON", "Fan is ON"], .normal) := by
  refine ⟨?_, ?_, ?_⟩ <;>
    exact observe_runSection_add 3 k _ _ _ (by decide) (by decide)

/-- C2: in the corrected Open/Closed section, `processPayment(p)` completes normally with
exactly one console line for each concrete variant: "Payment done using Credit Card",
"Payment done using PayPal", "Payment done using Google Pay"; the usage of lines 69-75
prints the three lines in this order. This holds for every amount of fuel from 3 on. -/
theorem C2_processPayment_per_variant (k : Nat) :
    observe (runSection (3 + k) (OpenClose.processOn "CreditCardPayment")) =
      (["Payment done using Credit Card"], .normal) ∧
    observe (runSection (3 + k) (OpenClose.processOn "PayPalPayment")) =
      (["Payment done using PayPal"], .normal) ∧
    observe (runSection (3 + k) (OpenClose.processOn "GooglePayPayment")) =
      (["Payment done using Google Pay"], .normal) ∧
    observe (runSection (3 + k) OpenClose.goodSection) =
      (["Payment done using Credit Card", "Payment done using PayPal",
        "Payment done using Google Pay"], .normal) := by
  refine ⟨?_, ?_, ?_, ?_⟩ <;>
    exact observe_runSection_add 3 k _ _ _ (by decide) (by decide)

/-- C3: extension without modification. In any state in which the name `processPayment`
is bound to the function of lines 64-66 (whatever classes, objects and console lines the
state holds), and for any argument expression `e`, the statement `processPayment(e);`
finishes with a result `r` (final state with its console, together with normal completion
or the thrown error) exactly when the statement `e.pay();` finishes with `r`; in terms of
fuel, `processPayment(e);` with `n + 2` units is `e.pay();` with `n + 1` units. -/
theorem C3_processPayment_is_pay (st : St)
    (hf : st.funs.lookup "processPayment" = some OpenClose.processPayment)
    (this : Value) (loc : List (String × Value)) (e : Expr) :
    (∀ n, exec (n + 2) st this loc [.callFn "processPayment" [e]] =
        exec (n + 1) st this loc [.call e "pay" []]) ∧
    (∀ r : St × Completion, r.2 ≠ .outOfFuel →
      ((∃ n, exec n st this loc [.callFn "processPayment" [e]] = r) ↔
       (∃ n, exec n st this loc [.call e "pay" []] = r))) := by
  refine ⟨fun n => exec_processPayment st hf this loc e n, fun r hr => ⟨?_, ?_⟩⟩
  · rintro ⟨n, hn⟩
    match n, hn with
    | 0, hn => subst hn; simp [exec] at hr
    | 1, hn =>
      refine ⟨1, ?_⟩
      rw [← exec_processPayment_one st hf this loc e (by rw [hn]; exact hr)]
      exact hn
    | n + 2, hn => exact ⟨n + 1, by rw [← exec_processPayment st hf this loc e n]; exact hn⟩
  · rintro ⟨n, hn⟩
    match n, hn with
    | 0, hn => subst hn; simp [exec] at hr
    | n + 1, hn => exact ⟨n + 2, by rw [exec_processPayment st hf this loc e n]; exact hn⟩

/-- Witness for C3: after the declarations of the corrected Open/Closed section and
`const p = new GooglePayPayment();`, `processPayment(p);` with 3 units of fuel is `p.pay();`
with 2 units. -/
theorem C3_processPayment_is_pay_witness :
    OpenClose.googlePayState.funs.lookup "processPayment" = some OpenClose.processPayment ∧
    exec 3 OpenClose.googlePayState .undefined [] [.callFn "processPayment" [.var "p"]] =
      exec 2 OpenClose.googlePayState .undefined [] [.call (.var "p") "pay" []] :=
  ⟨rfl, (C3_processPayment_is_pay OpenClose.googlePayState rfl .undefined [] (.var "p")).1 1⟩

/-- C4: in the corrected Single-Responsibility section, for every `name` and `email`,
`userRepository.save(new User(name, email))` completes normally with exactly the line
"Saving <name> to database..." and `emailService.send(new User(name, email))` with exactly
"Sending email to <email>..."; the usage of lines 62-67 prints "Saving Fayyaz to database..."
then "Sending email to fayyaz@example.com..."; what `save` shows is the same for any other
email and what `send` shows is the same for any other name. For every fuel from 3 on. -/
theorem C4_save_and_send (name email name' email' : String) (k : Nat) :
    observe (runSection (3 + k) (SingleRes.saveUser name email)) =
      (["Saving " ++ name ++ " to database..."], .normal) ∧
    observe (runSection (3 + k) (SingleRes.sendUser name email)) =
      (["Sending email to " ++ email ++ "..."], .normal) ∧
    observe (runSection (3 + k) SingleRes.goodSection) =
      (["Saving Fayyaz to database...", "Sending email to fayyaz@example.com..."], .normal) ∧
    observe (runSection (3 + k) (SingleRes.saveUser name email')) =
      observe (runSection (3 + k) (SingleRes.saveUser name email)) ∧
    observe (runSection (3 + k) (SingleRes.sendUser name' email)) =
      observe (runSection (3 + k) (SingleRes.sendUser name email)) := by
  have hsave : ∀ nm em : String, observe (runSection (3 + k) (SingleRes.saveUser nm em)) =
      (["Saving " ++ nm ++ " to database..."], .normal) :=
    fun nm em => observe_runSection_add 3 k _ _ _ (by decide) rfl
  have hsend : ∀ nm em : String, observe (runSection (3 + k) (SingleRes.sendUser nm em)) =
      (["Sending email to " ++ em ++ "..."], .normal) :=
    fun nm em => observe_runSection_add 3 k _ _ _ (by decide) rfl
  refine ⟨hsave _ _, hsend _ _, ?_, ?_, ?_⟩
  · exact observe_runSection_add 3 k _ _ _ (by decide) (by decide)
  · rw [hsave, hsave]
  · rw [hsend, hsend]

/-- C5: an operation invoked on an abstract role fails and prints nothing:
`new ElectricDevice().turnOn()` and `.turnOff()` throw Error("This method must be
implemented!"), `new Payment().pay()` throws Error("Method 'pay()' must be implemented"),
and so do `new Switch(new ElectricDevice()).press()` and `processPayment(new Payment())`;
each leaves the console empty. For every fuel from 3 on. -/
theorem C5_abstract_operations_throw (k : Nat) :
    observe (runSection (3 + k) (DependencyIn.callOn "ElectricDevice" "turnOn")) =
      ([], .thrown (.error "This method must be implemented!")) ∧
    observe (runSection (3 + k) (DependencyIn.callOn "ElectricDevice" "turnOff")) =
      ([], .thrown (.error "This method must be implemented!")) ∧
    observe (runSection (3 + k) (OpenClose.payOn "Payment")) =
      ([], .thrown (.error "Method 'pay()' must be implemented")) ∧
    observe (runSection (3 + k) (DependencyIn.pressOn "ElectricDevice")) =
      ([], .thrown (.error "This method must be implemented!")) ∧
    observe (runSection (3 + k) (OpenClose.processOn "Payment")) =
      ([], .thrown (.error "Method 'pay()' must be implemented")) := by
  refine ⟨?_, ?_, ?_, ?_, ?_⟩ <;>
    exact observe_runSection_add 3 k _ _ _ (by decide) (by decide)

/-- C6: in the corrected Liskov section `eat()` completes normally on a `Sparrow` and on a
`Penguin` with exactly "This bird is eating"; `fly()` on a `Sparrow` prints exactly "This
bird is flying"; `swim()` on a `Penguin` prints exactly "This bird is swimming"; method
lookup of `fly` from `Penguin` along Penguin -> Bird finds nothing (calling it is the
TypeError "fly is not a function"); the declared operations reachable from `Sparrow` are
exactly `eat` and `fly`, those reachable from `Penguin` exactly `eat` and `swim`. -/
theorem C6_bird_operations (k : Nat) :
    observe (runSection (3 + k) (LiskovSubs.callOn "Sparrow" "eat")) =
      (["This bird is eating"], .normal) ∧
    observe (runSection (3 + k) (LiskovSubs.callOn "Penguin" "eat")) =
      (["This bird is eating"], .normal) ∧
    observe (runSection (3 + k) (LiskovSubs.callOn "Sparrow" "fly")) =
      (["This bird is flying"], .normal) ∧
    observe (runSection (3 + k) (LiskovSubs.callOn "Penguin" "swim")) =
      (["This bird is swimming"], .normal) ∧
    observe (runSection (3 + k) LiskovSubs.goodSection) =
      (["This bird is flying", "This bird is swimming"], .normal) ∧
    ((declared LiskovSubs.decls).methodOf "Penguin" "fly").isSome = false ∧
    observe (runSection (3 + k) (LiskovSubs.callOn "Penguin" "fly")) =
      ([], .thrown (notAFunction "fly")) ∧
    (∀ m, ((declared LiskovSubs.decls).methodOf "Sparrow" m).isSome = true ↔
      (m = "eat" ∨ m = "fly")) ∧
    (∀ m, ((declared LiskovSubs.decls).methodOf "Penguin" m).isSome = true ↔
      (m = "eat" ∨ m = "swim")) := by
  have hS : (declared LiskovSubs.decls).operations "Sparrow" = ["fly", "eat"] := by decide
  have hP : (declared LiskovSubs.decls).operations "Penguin" = ["swim", "eat"] := by decide
  refine ⟨?_, ?_, ?_, ?_, ?_, by decide, ?_, ?_, ?_⟩
  · exact observe_runSection_add 3 k _ _ _ (by decide) (by decide)
  · exact observe_runSection_add 3 k _ _ _ (by decide) (by decide)
  · exact observe_runSection_add 3 k _ _ _ (by decide) (by decide)
  · exact observe_runSection_add 3 k _ _ _ (by decide) (by decide)
  · exact observe_runSection_add 3 k _ _ _ (by decide) (by decide)
  · exact observe_runSection_add 3 k _ _ _ (by decide) (by decide)
  · intro m
    rw [methodOf_isSome, hS]
    simp only [List.mem_cons, List.mem_singleton, List.not_mem_nil, or_false]
    exact or_comm
  · intro m
    rw [methodOf_isSome, hP]
    simp only [List.mem_cons, List.mem_singleton, List.not_mem_nil, or_false]
    exact or_comm

/-- C7: in the corrected Interface-Segregation section each chef has exactly one declared
operation, on itself or an ancestor, and it completes normally with exactly one line:
`PizzaChef` only `preparePizza` ("Making Pizza..."), `BurgerChef` only `prepareBurger`
("Making Burger..."), `JuiceChef` only `prepareJuice` ("Making Juice..."); method lookup of
any other name from that chef finds nothing. The usage of lines 82-89 prints the three
lines in this order. -/
theorem C7_chef_operations (k : Nat) :
    observe (runSection (3 + k) (InterfaceSegm.callOn "PizzaChef" "preparePizza")) =
      (["Making Pizza..."], .normal) ∧
    observe (runSection (3 + k) (InterfaceSegm.callOn "BurgerChef" "prepareBurger")) =
      (["Making Burger..."], .normal) ∧
    observe (runSection (3 + k) (InterfaceSegm.callOn "JuiceChef" "prepareJuice")) =
      (["Making Juice..."], .normal) ∧
    observe (runSection (3 + k) InterfaceSegm.goodSection) =
      (["Making Pizza...", "Making Burger...", "Making Juice..."], .normal) ∧
    (∀ m, ((declared InterfaceSegm.decls).methodOf "PizzaChef" m).isSome = true ↔
      m = "preparePizza") ∧
    (∀ m, ((declared InterfaceSegm.decls).methodOf "BurgerChef" m).isSome = true ↔
      m = "prepareBurger") ∧
    (∀ m, ((declared InterfaceSegm.decls).methodOf "JuiceChef" m).isSome = true ↔
      m = "prepareJuice") := by
  have hP : (declared InterfaceSegm.decls).operations "PizzaChef" = ["preparePizza"] := by
    decide
  have hB : (declared InterfaceSegm.decls).operations "BurgerChef" = ["prepareBurger"] := by
    decide
  have hJ : (declared InterfaceSegm.decls).operations "JuiceChef" = ["prepareJuice"] := by
    decide
  refine ⟨?_, ?_, ?_, ?_, ?_, ?_, ?_⟩
  · exact observe_runSection_add 3 k _ _ _ (by decide) (by decide)
  · exact observe_runSection_add 3 k _ _ _ (by decide) (by decide)
  · exact observe_runSection_add 3 k _ _ _ (by decide) (by decide)
  · exact observe_runSection_add 3 k _ _ _ (by decide) (by decide)
  · intro m; rw [methodOf_isSome, hP]; exact List.mem_singleton
  · intro m; rw [methodOf_isSome, hB]; exact List.mem_singleton
  · intro m; rw [methodOf_isSome, hJ]; exact List.mem_singleton

/-- C8 as stated fails: in the wrong-approach Interface-Segregation section
`new RestaurantMenu().prepareBurger()` returns normally and prints nothing, and no amount
of fuel makes it end with a thrown error. -/
theorem C8_counterexample_restaurantMenu_returns :
    observe (runSection 3 (InterfaceSegm.wrongCallOn "RestaurantMenu" "prepareBurger")) =
      ([], .normal) ∧
    ¬ ∃ fuel err,
      (runSection fuel (InterfaceSegm.wrongCallOn "RestaurantMenu" "prepareBurger")).2 =
        .thrown err := by
  refine ⟨by decide, ?_⟩
  rintro ⟨fuel, err, h⟩
  cases fuel with
  | zero =>
    have h0 : (runSection 0 (InterfaceSegm.wrongCallOn "RestaurantMenu" "prepareBurger")).2 =
        .outOfFuel := by decide
    rw [h0] at h
    cases h
  | succ n =>
    have h1 := observe_runSection_add 1 n
      (InterfaceSegm.wrongCallOn "RestaurantMenu" "prepareBurger") [] .normal
      (by decide) (by decide)
    have h2 : (runSection (1 + n) (InterfaceSegm.wrongCallOn "RestaurantMenu" "prepareBurger")).2
        = .normal := congrArg Prod.snd h1
    rw [Nat.add_comm] at h2
    rw [h2] at h
    cases h

/-- C8 amended: in the wrong-approach Interface-Segregation section, `prepareBurger()` and
`prepareJuice()` on a `PizzaChef` throw Error("I can't make a Burger!") and
Error("I can't make Juice!") and print nothing; on `RestaurantMenu` itself the three
operations have empty bodies: each returns normally and prints nothing. -/
theorem C8_placeholders_amended (k : Nat) :
    observe (runSection (3 + k) (InterfaceSegm.wrongCallOn "PizzaChef" "prepareBurger")) =
      ([], .thrown (.error "I can't make a Burger!")) ∧
    observe (runSection (3 + k) (InterfaceSegm.wrongCallOn "PizzaChef" "prepareJuice")) =
      ([], .thrown (.error "I can't make Juice!")) ∧
    observe (runSection (3 + k) (InterfaceSegm.wrongCallOn "RestaurantMenu" "preparePizza")) =
      ([], .normal) ∧
    observe (runSection (3 + k) (InterfaceSegm.wrongCallOn "RestaurantMenu" "prepareBurger")) =
      ([], .normal) ∧
    observe (runSection (3 + k) (InterfaceSegm.wrongCallOn "RestaurantMenu" "prepareJuice")) =
      ([], .normal) := by
  refine ⟨?_, ?_, ?_, ?_, ?_⟩ <;>
    exact observe_runSection_add 3 k _ _ _ (by decide) (by decide)

/-- C9 as stated fails: the Interface-Segregation file, run in source order, never completes
normally. Binding the twice-declared `PizzaChef` again, it prints "Making Pizza..." and
stops at `chef.prepareBurger()` of line 38 with the uncaught Error("I can't make a
Burger!"), so `juiceChef.prepareJuice()` is never reached; with the early error of the
language it stops before the first statement on the second `class PizzaChef`. -/
theorem C9_counterexample_interfaceSegm_halts :
    observe (runTop 3 St.init InterfaceSegm.file) =
      (["Making Pizza..."], .thrown (.error "I can't make a Burger!")) ∧
    observe (runScript 3 InterfaceSegm.file) = ([], .thrown (.redeclared "PizzaChef")) ∧
    ¬ ∃ fuel, (runTop fuel St.init InterfaceSegm.file).2 = .normal ∨
      (runScript fuel InterfaceSegm.file).2 = .normal := by
  refine ⟨by decide, by decide, ?_⟩
  rintro ⟨fuel, h | h⟩
  · match fuel, h with
    | 0, h => exact absurd h (by decide)
    | 1, h => exact absurd h (by decide)
    | n + 2, h =>
      have h1 := observe_runSection_add 2 n InterfaceSegm.file ["Making Pizza..."]
        (.thrown (.error "I can't make a Burger!")) (by decide) (by decide)
      have h2 : (runTop (2 + n) St.init InterfaceSegm.file).2 =
          .thrown (.error "I can't make a Burger!") := congrArg Prod.snd h1
      rw [Nat.add_comm] at h2
      rw [h2] at h
      cases h
  · have h1 : (runScript fuel InterfaceSegm.file).2 = .thrown (.redeclared "PizzaChef") := rfl
    rw [h1] at h
    cases h

/-- C9 amended: run on its own in source order, every corrected section and the
wrong-approach sections of Dependency-Inversion, Open/Closed and Single-Responsibility run
to completion with one fixed, ordered sequence of console lines (the corrected
Interface-Segregation section ending with "Making Juice..."), and so do lines 16-27 of the
Liskov file; the wrong-approach Interface-Segregation section instead prints "Making
Pizza..." and ends at `chef.prepareBurger()` with the uncaught Error("I can't make a
Burger!"). For every fuel from 3 on. -/
theorem C9_sections_amended (k : Nat) :
    observe (runSection (3 + k) DependencyIn.wrongSection) = (["Bulb is ON"], .normal) ∧
    observe (runSection (3 + k) DependencyIn.goodSection) =
      (["Bulb is ON", "Fan is ON"], .normal) ∧
    observe (runSection (3 + k) (LiskovSubs.wrongDecls ++ LiskovSubs.wrongSparrowUsage)) =
      (["This bird is flying"], .normal) ∧
    observe (runSection (3 + k) LiskovSubs.goodSection) =
      (["This bird is flying", "This bird is swimming"], .normal) ∧
    observe (runSection (3 + k) OpenClose.wrongSection) = ([], .normal) ∧
    observe (runSection (3 + k) OpenClose.goodSection) =
      (["Payment done using Credit Card", "Payment done using PayPal",
        "Payment done using Google Pay"], .normal) ∧
    observe (runSection (3 + k) SingleRes.wrongSection) = ([], .normal) ∧
    observe (runSection (3 + k) SingleRes.goodSection) =
      (["Saving Fayyaz to database...", "Sending email to fayyaz@example.com..."], .normal) ∧
    observe (runSection (3 + k) InterfaceSegm.wrongSection) =
      (["Making Pizza..."], .thrown (.error "I can't make a Burger!")) ∧
    observe (runSection (3 + k) InterfaceSegm.goodSection) =
      (["Making Pizza...", "Making Burger...", "Making Juice..."], .normal) := by
  refine ⟨?_, ?_, ?_, ?_, ?_, ?_, ?_, ?_, ?_, ?_⟩ <;>
    exact observe_runSection_add 3 k _ _ _ (by decide) (by decide)

/-- C10, the code at the failing input: in the wrong-approach Liskov section `fly()` on a
`Sparrow` prints "This bird is flying", and `fly()` on a `Penguin` also completes normally
and prints "This bird is flying": it throws no error, whatever the fuel from 3 on. -/
theorem C10_wrong_penguin_fly_prints (k : Nat) :
    observe (runSection (3 + k) (LiskovSubs.wrongDecls ++ LiskovSubs.wrongSparrowUsage)) =
      (["This bird is flying"], .normal) ∧
    observe (runSection (3 + k) (LiskovSubs.wrongDecls ++ LiskovSubs.wrongPenguinUsage)) =
      (["This bird is flying"], .normal) ∧
    observe (runSection (3 + k) LiskovSubs.wrongSection) =
      (["This bird is flying", "This bird is flying"], .normal) := by
  refine ⟨?_, ?_, ?_⟩ <;>
    exact observe_runSection_add 3 k _ _ _ (by decide) (by decide)

end Solid
